import Mathlib

/-!
Verification development for the starlight payment-channel SDK.

The development shallowly embeds the Go source of the repository: the
agent (package agent), its message handlers, and the integration test of
the state package. Parts of the repository that the agent and the test
call but whose source is not present (the state.Channel state machine and
the txbuild transaction builders) are modelled from the specification and
carry a doc comment saying so.
-/

set_option autoImplicit false

namespace Starlight

/-! ## Commitment chain (spec section 3, txbuild)

The txbuild package is not part of the provided source; only its callers
are (the integration test builds declaration and close transactions per
iteration). The sequence-number layout is modelled from the spec. -/

/-- Modelled from the spec: txbuild.Declaration is missing from the
provided source. Declaration transaction #i of a channel whose escrow
starts at sequence s is built to consume sequence s + 2(i-1) + 1. -/
def declSeq (s i : Int) : Int := s + 2 * (i - 1) + 1

/-- Modelled from the spec: txbuild.Close is missing from the provided
source. Close transaction #i consumes sequence s + 2(i-1) + 2. -/
def closeSeq (s i : Int) : Int := s + 2 * (i - 1) + 2

/-- Modelled from the spec: the ledger's sequence-number gate. A
transaction that consumes sequence n is executable on an escrow account
whose current sequence is cur exactly when cur < n (the target sequence
is not yet consumed); executing it advances the account to n. -/
def seqExecutable (cur n : Int) : Bool := cur < n

/-- Modelled from the spec: executing declaration #i advances the escrow
sequence to the sequence it consumes, when executable. -/
def execDecl (s cur i : Int) : Option Int :=
  if seqExecutable cur (declSeq s i) then some (declSeq s i) else none

/-! ## The integration test's close parameters (src/unnamed/part_000)

The test tracks a running `owing` (positive: initiator owes responder,
negative: responder owes initiator) and derives the per-iteration close
parameters from it. -/

/-- Net owed after a list of signed payments, as the test's `owing`
variable: positive entries are payments from initiator to responder. -/
def owingAfter (payments : List Int) : Int := payments.foldl (fun a b => a + b) 0

/-- The test's `iOwesR`: the positive part of `owing`. -/
def iOwesR (owing : Int) : Int := if owing > 0 then owing else 0

/-- The test's `rOwesI`: the positive part of `-owing`. -/
def rOwesI (owing : Int) : Int := if owing < 0 then -owing else 0

/-- Close-transaction parameters as built by the integration test
(txbuild.CloseParams fields relevant to balances). -/
structure CloseParams where
  startSequence : Int
  iterationNumber : Int
  amountToInitiator : Int
  amountToResponder : Int
deriving DecidableEq, Repr

/-- The test's closeParams value at iteration i given the running owing:
AmountToInitiator := rOwesI, AmountToResponder := iOwesR. -/
def closeParamsAt (s i owing : Int) : CloseParams :=
  { startSequence := s
    iterationNumber := i
    amountToInitiator := rOwesI owing
    amountToResponder := iOwesR owing }

/-! ## Agent configuration (src/unnamed/part_002, NewAgent and Config)

Collaborator interfaces, keys and channels are opaque to the agent: it
only stores and returns them. They are embedded as values of stand-in
types whose equality is value equality. -/

/-- Config passed to NewAgent (agent.Config). Interface-typed fields are
stand-ins for the references the Go struct holds. -/
structure Config where
  observationPeriodTime : Int
  observationPeriodLedgerGap : Int
  maxOpenExpiry : Int
  networkPassphrase : String
  sequenceNumberCollector : Nat
  balanceCollector : Nat
  submitter : Nat
  streamer : Nat
  snapshotter : Nat
  channelAccountKey : String
  channelAccountSigner : String
  logWriter : Nat
  events : Nat
deriving DecidableEq, Repr

/-- The immutable fields of agent.Agent, as set by NewAgent. -/
structure Agent where
  observationPeriodTime : Int
  observationPeriodLedgerGap : Int
  maxOpenExpiry : Int
  networkPassphrase : String
  sequenceNumberCollector : Nat
  balanceCollector : Nat
  submitter : Nat
  streamer : Nat
  snapshotter : Nat
  channelAccountKey : String
  channelAccountSigner : String
  logWriter : Nat
  events : Nat
deriving DecidableEq, Repr

/-- agent.NewAgent: copies every Config field into the agent. -/
def NewAgent (c : Config) : Agent :=
  { observationPeriodTime := c.observationPeriodTime
    observationPeriodLedgerGap := c.observationPeriodLedgerGap
    maxOpenExpiry := c.maxOpenExpiry
    networkPassphrase := c.networkPassphrase
    sequenceNumberCollector := c.sequenceNumberCollector
    balanceCollector := c.balanceCollector
    submitter := c.submitter
    streamer := c.streamer
    snapshotter := c.snapshotter
    channelAccountKey := c.channelAccountKey
    channelAccountSigner := c.channelAccountSigner
    logWriter := c.logWriter
    events := c.events }

/-- agent.Agent.Config: rebuilds a Config from the agent's fields. -/
def Agent.Config (a : Agent) : Config :=
  { observationPeriodTime := a.observationPeriodTime
    observationPeriodLedgerGap := a.observationPeriodLedgerGap
    maxOpenExpiry := a.maxOpenExpiry
    networkPassphrase := a.networkPassphrase
    sequenceNumberCollector := a.sequenceNumberCollector
    balanceCollector := a.balanceCollector
    submitter := a.submitter
    streamer := a.streamer
    snapshotter := a.snapshotter
    channelAccountKey := a.channelAccountKey
    channelAccountSigner := a.channelAccountSigner
    logWriter := a.logWriter
    events := a.events }

/-! ## Agent open expiry (src/unnamed/part_002, Agent.Open)

Durations are Go time.Duration values, i.e. integer nanosecond counts;
Go's integer division by 2 on a nonnegative duration is Int division. -/

/-- The open parameters Agent.Open passes to ProposeOpen: the expiry is
now + maxOpenExpiry/2 and the starting sequence is seqNum + 1. -/
structure OpenParams where
  observationPeriodTime : Int
  observationPeriodLedgerGap : Int
  expiresAt : Int
  startingSequence : Int
deriving DecidableEq, Repr

/-- agent.Agent.Open's computation of the proposal parameters: it reads
the channel account's sequence number seqNum, sets
openExpiresAt := time.Now().Add(maxOpenExpiry / 2), and calls
ProposeOpen with ExpiresAt := openExpiresAt,
StartingSequence := seqNum + 1. -/
def agentOpenParams (obsTime obsGap maxOpenExpiry now seqNum : Int) : OpenParams :=
  { observationPeriodTime := obsTime
    observationPeriodLedgerGap := obsGap
    expiresAt := now + maxOpenExpiry / 2
    startingSequence := seqNum + 1 }

/-! ## Channel state machine (spec section 4.4)

The state package (state.Channel and its methods) is not part of the
provided source; only its callers are (the agent in src/unnamed/part_002
and the integration test in src/unnamed/part_000). The state machine
below is modelled from the spec: phases, open and close envelopes with
proposer and confirmer signature sets, the agreement ledger, the balance
accountant's cached balances, and the propose/confirm/finalize
operations. Signatures are embedded as presence flags; a detached
signature set additionally records the details it attests to, so that
verification compares it with the locally stored details. -/

/-- Channel phase (spec section 3: None, Proposing-Open, Open, Closing,
Closed). -/
inductive Phase
  | unopened
  | proposingOpen
  | opened
  | closing
  | closed
deriving DecidableEq, Repr

/-- An asset: the ledger's native asset or a (code, issuer) pair. -/
inductive Asset
  | native
  | credit (code issuer : String)
deriving DecidableEq, Repr

/-- Details of an open agreement (spec section 3). -/
structure OpenDetails where
  observationPeriodTime : Int
  observationPeriodLedgerGap : Int
  asset : Asset
  expiresAt : Int
  startingSequence : Int
deriving DecidableEq, Repr

/-- A signature set over the three transactions an open envelope covers. -/
structure OpenSigs where
  close : Bool
  declaration : Bool
  formation : Bool
deriving DecidableEq, Repr

/-- A complete open signature set. -/
def OpenSigs.all : OpenSigs := ⟨true, true, true⟩

/-- Whether every signature of the set is present. -/
def OpenSigs.complete (s : OpenSigs) : Bool := s.close && s.declaration && s.formation

/-- An open envelope: details plus proposer and confirmer signature
sets. -/
structure OpenEnv where
  details : OpenDetails
  proposerSignatures : OpenSigs
  confirmerSignatures : OpenSigs
deriving DecidableEq, Repr

/-- An envelope is authorized iff both signature sets are complete for
every transaction it covers (spec section 4.1). -/
def OpenEnv.authorized (e : OpenEnv) : Bool :=
  e.proposerSignatures.complete && e.confirmerSignatures.complete

/-- Details of a close agreement at one iteration (spec section 3).
`balance` is the canonical net amount the initiator owes the responder
after this iteration; `observationPeriodZero` marks a coordinated-close
revision whose close transaction carries no time lock. -/
structure CloseDetails where
  iterationNumber : Int
  paymentAmount : Int
  balance : Int
  proposingSigner : String
  observationPeriodZero : Bool
deriving DecidableEq, Repr

/-- A signature set over the two transactions a close envelope covers. -/
structure CloseSigs where
  close : Bool
  declaration : Bool
deriving DecidableEq, Repr

/-- Whether every signature of the set is present. -/
def CloseSigs.complete (s : CloseSigs) : Bool := s.close && s.declaration

/-- A close envelope: details plus proposer and confirmer signature
sets. -/
structure CloseEnv where
  details : CloseDetails
  proposerSignatures : CloseSigs
  confirmerSignatures : CloseSigs
deriving DecidableEq, Repr

/-- A close envelope is authorized iff both signature sets are
complete. -/
def CloseEnv.authorized (e : CloseEnv) : Bool :=
  e.proposerSignatures.complete && e.confirmerSignatures.complete

/-- A detached confirmer signature set, as carried by a PaymentResponse:
the signatures plus the details whose transactions they sign (a
signature verifies only against the transactions derived from those
details). -/
structure CloseAgreementSignatures where
  close : Bool
  declaration : Bool
  signedDetails : CloseDetails
deriving DecidableEq, Repr

/-- Errors of the channel state machine (spec section 7). -/
inductive ChError
  | noChannel
  | alreadyOpen
  | closeInProgress
  | underfunded
  | invalidOpen
  | invalidPayment
  | invalidClose
  | invalidSignature
  | noUnauthorized
  | notSigned
  | invalidAmount
deriving DecidableEq, Repr

/-- Channel state (spec section 3): configuration, phase, the agreement
ledger's three slots, and the balance accountant's cached on-chain
balances. -/
structure Channel where
  initiator : Bool
  localSigner : String
  remoteSigner : String
  phase : Phase
  openAgreement : Option OpenEnv
  latestAuthorizedClose : Option CloseEnv
  latestUnauthorizedClose : Option CloseEnv
  localCachedBalance : Int
  remoteCachedBalance : Int
deriving DecidableEq, Repr

/-- Iteration number of the latest authorized close (0 at open). -/
def Channel.iCur (ch : Channel) : Int :=
  match ch.latestAuthorizedClose with
  | some e => e.details.iterationNumber
  | none => 0

/-- Canonical balance of the latest authorized close (0 at open). -/
def Channel.curBalance (ch : Channel) : Int :=
  match ch.latestAuthorizedClose with
  | some e => e.details.balance
  | none => 0

/-- Modelled from the spec (state.Channel.UpdateLocalEscrowAccountBalance
is missing from src): refresh the cached local on-chain balance. -/
def updateLocalChannelAccountBalance (ch : Channel) (b : Int) : Channel :=
  { ch with localCachedBalance := b }

/-- Modelled from the spec (state.Channel.UpdateRemoteEscrowAccountBalance
is missing from src): refresh the cached remote on-chain balance. -/
def updateRemoteChannelAccountBalance (ch : Channel) (b : Int) : Channel :=
  { ch with remoteCachedBalance := b }

/-- The local side fills every signature slot it can produce: the
proposer's slots when it is the open's proposer (the initiator), the
confirmer's otherwise. -/
def fillOpen (ch : Channel) (env : OpenEnv) : OpenEnv :=
  if ch.initiator then { env with proposerSignatures := OpenSigs.all }
  else { env with confirmerSignatures := OpenSigs.all }

/-- Modelled from the spec (state.Channel.ConfirmOpen is missing from
src, section 4.4.1): validates the envelope's details against the
locally stored proposal when one exists (InvalidOpen on mismatch), fills
every signature the local side can produce, transitions to Open and
stores the agreement when all signatures are present, and fails with
NotSigned when a remote signature is still missing. -/
def confirmOpen (ch : Channel) (env : OpenEnv) : Except ChError (OpenEnv × Channel) :=
  match ch.openAgreement with
  | some stored =>
      if env.details = stored.details then
        let env' := fillOpen ch env
        if env'.authorized then
          .ok (env', { ch with phase := .opened, openAgreement := some env' })
        else .error .notSigned
      else .error .invalidOpen
  | none =>
      let env' := fillOpen ch env
      if env'.authorized then
        .ok (env', { ch with phase := .opened, openAgreement := some env' })
      else .error .notSigned

/-- Modelled from the spec (state.Channel.ProposePayment is missing from
src, sections 4.3 and 4.4.2): requires the channel open and not closing,
a positive amount; computes the new canonical balance by the proposer's
direction; fails with Underfunded iff the proposer's resulting channel
balance (the amount the proposer would owe) exceeds the proposer's last
known on-chain balance; otherwise signs and stores the envelope at
iteration iCur + 1 as the latest unauthorized close. -/
def proposePayment (ch : Channel) (amount : Int) : Except ChError (CloseEnv × Channel) :=
  if ch.phase = Phase.closing then .error .closeInProgress
  else if ch.phase ≠ Phase.opened then .error .noChannel
  else if amount ≤ 0 then .error .invalidAmount
  else
    let newBalance := if ch.initiator then ch.curBalance + amount else ch.curBalance - amount
    let proposerOwes := if ch.initiator then newBalance else -newBalance
    if proposerOwes > ch.localCachedBalance then .error .underfunded
    else
      let env : CloseEnv :=
        { details :=
            { iterationNumber := ch.iCur + 1
              paymentAmount := amount
              balance := newBalance
              proposingSigner := ch.localSigner
              observationPeriodZero := false }
          proposerSignatures := ⟨true, true⟩
          confirmerSignatures := ⟨false, false⟩ }
      .ok (env, { ch with latestUnauthorizedClose := some env })

/-- The local side fills the signature slot of its role in the close:
the proposer's slots when the details name it as proposing signer, the
confirmer's otherwise. -/
def fillClose (ch : Channel) (env : CloseEnv) : CloseEnv :=
  if env.details.proposingSigner = ch.localSigner then
    { env with proposerSignatures := ⟨true, true⟩ }
  else
    { env with confirmerSignatures := ⟨true, true⟩ }

/-- Store a newly authorized close agreement: the authorized slot takes
it and the unauthorized slot is atomically cleared (spec section 4.2). -/
def storeAuthorized (ch : Channel) (env : CloseEnv) : Channel :=
  { ch with latestAuthorizedClose := some env
            latestUnauthorizedClose := none }

/-- The pending-proposal arm of confirm_payment: the incoming details
must match the held unauthorized proposal exactly; the local side adds
the signatures of its role and the agreement authorizes when
complete. -/
def confirmAgainstPending (ch : Channel) (env pending : CloseEnv) (mismatch : ChError) :
    Except ChError (CloseEnv × Channel) :=
  if env.details = pending.details then
    if (fillClose ch env).authorized then
      .ok (fillClose ch env, storeAuthorized ch (fillClose ch env))
    else .error .notSigned
  else .error mismatch

/-- The canonical balance the local side expects a counterparty payment
of the given amount to produce. -/
def expectedBalance (ch : Channel) (amount : Int) : Int :=
  if ch.initiator then ch.curBalance - amount else ch.curBalance + amount

/-- The amount the remote side owes under a canonical balance, seen from
the local side. -/
def remoteOwedOf (ch : Channel) (balance : Int) : Int :=
  if ch.initiator then -balance else balance

/-- The fresh arm of confirm_payment, taken when no unauthorized
proposal is held: the envelope must be a counterparty proposal with
complete proposer signatures and a positive amount whose balance follows
from the local state, Underfunded when the proposer's implied channel
balance exceeds their known on-chain balance; the local side confirms
and the agreement authorizes. -/
def confirmFreshPayment (ch : Channel) (env : CloseEnv) : Except ChError (CloseEnv × Channel) :=
  if env.details.proposingSigner ≠ ch.remoteSigner then .error .invalidSignature
  else if ¬ env.proposerSignatures.complete then .error .invalidSignature
  else if env.details.paymentAmount ≤ 0 then .error .invalidAmount
  else if env.details.balance ≠ expectedBalance ch env.details.paymentAmount then
    .error .invalidPayment
  else if remoteOwedOf ch env.details.balance > ch.remoteCachedBalance then .error .underfunded
  else
    .ok ({ env with confirmerSignatures := ⟨true, true⟩ },
         storeAuthorized ch { env with confirmerSignatures := ⟨true, true⟩ })

/-- Modelled from the spec (state.Channel.ConfirmPayment is missing from
src, sections 4.4.2 and 8.6): re-presenting the already-authorized
envelope is a no-op returning the same agreement (replay safety);
otherwise requires the channel open and not closing, iteration exactly
iCur + 1; when a pending unauthorized proposal is held, the details must
match it exactly (InvalidPayment on mismatch); when none is held, the
envelope must be a counterparty proposal whose balance follows from the
local state by the payment amount; storing the newly authorized close
clears the unauthorized slot. -/
def confirmPayment (ch : Channel) (env : CloseEnv) : Except ChError (CloseEnv × Channel) :=
  if ch.latestAuthorizedClose = some env then .ok (env, ch)
  else if ch.phase = Phase.closing then .error .closeInProgress
  else if ch.phase ≠ Phase.opened then .error .noChannel
  else if env.details.iterationNumber ≠ ch.iCur + 1 then .error .invalidPayment
  else if env.details.observationPeriodZero then .error .invalidPayment
  else
    match ch.latestUnauthorizedClose with
    | some pending => confirmAgainstPending ch env pending .invalidPayment
    | none => confirmFreshPayment ch env

/-- Modelled from the spec (state.Channel.FinalizePayment is missing from
src, sections 4.4.2 and 8.6): attaches the counterparty's confirmer
signatures to the pending unauthorized agreement after verifying them
against its details, promotes it to authorized and clears the
unauthorized slot; re-presenting the signatures of the already-authorized
agreement is a no-op returning the same agreement (replay safety);
fails with NoUnauthorizedAgreement or InvalidSignature otherwise. -/
def finalizePayment (ch : Channel) (sigs : CloseAgreementSignatures) :
    Except ChError (CloseEnv × Channel) :=
  match ch.latestUnauthorizedClose with
  | some pending =>
      if sigs.signedDetails = pending.details ∧ sigs.close = true ∧ sigs.declaration = true then
        let env' := { pending with confirmerSignatures := ⟨true, true⟩ }
        .ok (env', { ch with latestAuthorizedClose := some env'
                             latestUnauthorizedClose := none
                             phase := if env'.details.observationPeriodZero then Phase.closing
                                      else ch.phase })
      else .error .invalidSignature
  | none =>
      match ch.latestAuthorizedClose with
      | some auth =>
          if sigs.signedDetails = auth.details ∧ sigs.close = true ∧ sigs.declaration = true then
            .ok (auth, ch)
          else .error .noUnauthorized
      | none => .error .noUnauthorized

/-- Modelled from the spec (state.Channel.ProposeClose is missing from
src, section 4.4.3): builds a revised agreement at iteration iCur + 1
with the same balance and an untimelocked close transaction, stores it
as unauthorized, and moves the phase to Closing. -/
def proposeClose (ch : Channel) : Except ChError (CloseEnv × Channel) :=
  if ch.phase ≠ Phase.opened ∧ ch.phase ≠ Phase.closing then .error .noChannel
  else
    let env : CloseEnv :=
      { details :=
          { iterationNumber := ch.iCur + 1
            paymentAmount := 0
            balance := ch.curBalance
            proposingSigner := ch.localSigner
            observationPeriodZero := true }
        proposerSignatures := ⟨true, true⟩
        confirmerSignatures := ⟨false, false⟩ }
    .ok (env, { ch with latestUnauthorizedClose := some env, phase := Phase.closing })

/-- Mark the result of a confirm-close arm as Closing (spec section
4.4.3: after the coordinated-close exchange the phase is Closing). -/
def toClosing (r : Except ChError (CloseEnv × Channel)) : Except ChError (CloseEnv × Channel) :=
  match r with
  | .ok (env, ch) => .ok (env, { ch with phase := Phase.closing })
  | .error e => .error e

/-- The fresh arm of confirm_close, taken when no unauthorized proposal
is held: the envelope must be a counterparty proposal with complete
proposer signatures carrying the current balance unchanged; the local
side confirms and the agreement authorizes. -/
def confirmFreshClose (ch : Channel) (env : CloseEnv) : Except ChError (CloseEnv × Channel) :=
  if env.details.proposingSigner ≠ ch.remoteSigner then .error .invalidSignature
  else if ¬ env.proposerSignatures.complete then .error .invalidSignature
  else if env.details.balance ≠ ch.curBalance then .error .invalidClose
  else
    .ok ({ env with confirmerSignatures := ⟨true, true⟩ },
         storeAuthorized ch { env with confirmerSignatures := ⟨true, true⟩ })

/-- Modelled from the spec (state.Channel.ConfirmClose is missing from
src, section 4.4.3): mirrors confirm_payment for the coordinated-close
revision: same iteration rule, same pending-details matching, replay
safety, and the phase moves to Closing when the revision authorizes. -/
def confirmClose (ch : Channel) (env : CloseEnv) : Except ChError (CloseEnv × Channel) :=
  if ch.latestAuthorizedClose = some env then .ok (env, ch)
  else if ch.phase ≠ Phase.opened ∧ ch.phase ≠ Phase.closing then .error .noChannel
  else if env.details.iterationNumber ≠ ch.iCur + 1 then .error .invalidClose
  else if ¬ env.details.observationPeriodZero then .error .invalidClose
  else
    match ch.latestUnauthorizedClose with
    | some pending => toClosing (confirmAgainstPending ch env pending .invalidClose)
    | none => toClosing (confirmFreshClose ch env)

/-- One caller-visible operation on a channel. -/
inductive Op
  | proposePay (amount : Int)
  | confirmPay (env : CloseEnv)
  | finalizePay (sigs : CloseAgreementSignatures)
  | proposeCl
  | confirmCl (env : CloseEnv)
  | updLocal (b : Int)
  | updRemote (b : Int)
deriving DecidableEq, Repr

/-- Apply one operation; a failing operation leaves the channel
unchanged (every operation returns its error synchronously without
mutating, spec sections 4.4 and 7). -/
def Channel.step (ch : Channel) (op : Op) : Channel :=
  match op with
  | .proposePay a =>
      match proposePayment ch a with
      | .ok (_, ch') => ch'
      | .error _ => ch
  | .confirmPay env =>
      match confirmPayment ch env with
      | .ok (_, ch') => ch'
      | .error _ => ch
  | .finalizePay sigs =>
      match finalizePayment ch sigs with
      | .ok (_, ch') => ch'
      | .error _ => ch
  | .proposeCl =>
      match proposeClose ch with
      | .ok (_, ch') => ch'
      | .error _ => ch
  | .confirmCl env =>
      match confirmClose ch env with
      | .ok (_, ch') => ch'
      | .error _ => ch
  | .updLocal b => updateLocalChannelAccountBalance ch b
  | .updRemote b => updateRemoteChannelAccountBalance ch b

/-- Run a sequence of operations from a starting channel. -/
def Channel.run (ch : Channel) (ops : List Op) : Channel := ops.foldl Channel.step ch

/-! ## Agent mutable state and handlers (src/unnamed/part_002) -/

/-- The wire Hello message (msg.Hello): the sender's channel account and
signer addresses. -/
structure Hello where
  channelAccount : String
  signer : String
deriving DecidableEq, Repr

/-- Errors of the agent's message handlers. -/
inductive AgentError
  | unexpectedChannelAccount
  | unexpectedSigner
  | noChannelYet
  | channelError (e : ChError)
deriving DecidableEq, Repr

/-- The agent's mutable state (agent.Agent's fields behind mu): the
recorded counterparty identity, the streamer cursor, and the channel
with its initiator flag when one exists. -/
structure AgentState where
  otherChannelAccount : Option String
  otherChannelAccountSigner : Option String
  streamerCursor : String
  channel : Option (Bool × Channel)
deriving DecidableEq, Repr

/-- agent.Agent.handleHello (src/unnamed/part_002): errors when a
recorded channel account or signer differs from the received one before
any assignment happens; otherwise records both. -/
def handleHello (a : AgentState) (h : Hello) : Except AgentError AgentState :=
  if a.otherChannelAccount.isSome ∧ a.otherChannelAccount ≠ some h.channelAccount then
    .error .unexpectedChannelAccount
  else if a.otherChannelAccountSigner.isSome ∧ a.otherChannelAccountSigner ≠ some h.signer then
    .error .unexpectedSigner
  else
    .ok { a with otherChannelAccount := some h.channelAccount
                 otherChannelAccountSigner := some h.signer }

/-- agent.Agent.handlePaymentRequest (src/unnamed/part_002): confirms
the incoming payment envelope on the channel; when that fails with
ErrUnderfunded it refreshes the cached remote channel-account balance
from the balance collector (here the value remoteOnChain) and retries
the same confirm once; any other error is returned as is. -/
def handlePaymentRequest (ch : Channel) (remoteOnChain : Int) (env : CloseEnv) :
    Except ChError (CloseEnv × Channel) :=
  match confirmPayment ch env with
  | .error .underfunded =>
      confirmPayment (updateRemoteChannelAccountBalance ch remoteOnChain) env
  | r => r

/-! ## Agent snapshot and restore (src/unnamed/part_002)

agent.Agent.buildSnapshot captures the mutable fields; state.Snapshot
and state.NewChannelFromSnapshot are missing from src and are modelled
from the spec (section 4.5): the snapshot carries the full channel state
and restoring reconstructs a channel with identical behavior. -/

/-- agent.Snapshot: the counterparty identity, the streamer cursor, and,
when a channel exists, its initiator flag and state snapshot. -/
structure Snapshot where
  otherChannelAccount : Option String
  otherChannelAccountSigner : Option String
  streamerCursor : String
  stateOf : Option (Bool × Channel)
deriving DecidableEq, Repr

/-- agent.Agent.buildSnapshot: copies the mutable fields; the channel
part uses channel.Snapshot(), modelled from the spec as capturing the
full channel state. -/
def buildSnapshot (a : AgentState) : Snapshot :=
  { otherChannelAccount := a.otherChannelAccount
    otherChannelAccountSigner := a.otherChannelAccountSigner
    streamerCursor := a.streamerCursor
    stateOf :=
      match a.channel with
      | some (init, ch) => some (init, ch)
      | none => none }

/-- agent.NewAgentFromSnapshot: restores the recorded fields and, when a
channel snapshot is present, rebuilds the channel through
state.NewChannelFromSnapshot, modelled from the spec as restoring the
identical channel state. -/
def NewAgentFromSnapshot (s : Snapshot) : AgentState :=
  { otherChannelAccount := s.otherChannelAccount
    otherChannelAccountSigner := s.otherChannelAccountSigner
    streamerCursor := s.streamerCursor
    channel :=
      match s.stateOf with
      | some (init, snap) => some (init, snap)
      | none => none }

/-- One agent-level operation: a Hello message, a channel operation, or
a streamer-cursor advance. -/
inductive AgentOp
  | hello (h : Hello)
  | chOp (op : Op)
  | setCursor (c : String)
deriving DecidableEq, Repr

/-- Apply one agent-level operation; a failing handler leaves the state
unchanged. -/
def agentStep (a : AgentState) (op : AgentOp) : AgentState :=
  match op with
  | .hello h =>
      match handleHello a h with
      | .ok a' => a'
      | .error _ => a
  | .chOp o =>
      match a.channel with
      | some (init, ch) => { a with channel := some (init, ch.step o) }
      | none => a
  | .setCursor c => { a with streamerCursor := c }

/-- Run a sequence of agent-level operations. -/
def agentRun (a : AgentState) (ops : List AgentOp) : AgentState := ops.foldl agentStep a

/-! ## Derived notions and concrete fixtures -/

/-- The channel balance the proposer would owe after proposing a payment
of the given amount: the new canonical balance seen from the proposer's
side. -/
def proposerResultingOwed (ch : Channel) (amount : Int) : Int :=
  if ch.initiator then ch.curBalance + amount else -(ch.curBalance - amount)

/-- The pending unauthorized close, when present, sits at iteration
iCur + 1. -/
def pendingInv (ch : Channel) : Prop :=
  ∀ p, ch.latestUnauthorizedClose = some p → p.details.iterationNumber = ch.iCur + 1

/-- Open details used by the concrete fixtures. -/
def openDetailsW : OpenDetails :=
  { observationPeriodTime := 20
    observationPeriodLedgerGap := 4
    asset := Asset.native
    expiresAt := 1000
    startingSequence := 101 }

/-- A proposer-signed open envelope. -/
def openEnvW : OpenEnv :=
  { details := openDetailsW
    proposerSignatures := OpenSigs.all
    confirmerSignatures := ⟨false, false, false⟩ }

/-- The same open envelope fully signed. -/
def openEnvW1 : OpenEnv :=
  { details := openDetailsW
    proposerSignatures := OpenSigs.all
    confirmerSignatures := OpenSigs.all }

/-- A fresh responder-side channel. -/
def chResponderW : Channel :=
  { initiator := false
    localSigner := "GB"
    remoteSigner := "GA"
    phase := Phase.unopened
    openAgreement := none
    latestAuthorizedClose := none
    latestUnauthorizedClose := none
    localCachedBalance := 1000
    remoteCachedBalance := 1000 }

/-- The responder-side channel after its confirm of the open. -/
def chResponderW1 : Channel :=
  { chResponderW with phase := Phase.opened, openAgreement := some openEnvW1 }

/-- An open initiator-side channel with no close agreements yet. -/
def chPW : Channel :=
  { initiator := true
    localSigner := "GA"
    remoteSigner := "GB"
    phase := Phase.opened
    openAgreement := some openEnvW1
    latestAuthorizedClose := none
    latestUnauthorizedClose := none
    localCachedBalance := 1000
    remoteCachedBalance := 1000 }

/-- A counterparty payment proposal for chPW at iteration 1. -/
def envPW : CloseEnv :=
  { details :=
      { iterationNumber := 1
        paymentAmount := 100
        balance := -100
        proposingSigner := "GB"
        observationPeriodZero := false }
    proposerSignatures := ⟨true, true⟩
    confirmerSignatures := ⟨false, false⟩ }

/-- The proposal envPW once fully signed. -/
def envPW1 : CloseEnv := { envPW with confirmerSignatures := ⟨true, true⟩ }

/-- The channel chPW after authorizing envPW1. -/
def chPW1 : Channel :=
  { chPW with latestAuthorizedClose := some envPW1, latestUnauthorizedClose := none }

/-- A pending local proposal at iteration 1 of a side whose own signer
address GB compares lexicographically larger than the counterparty's
GA. -/
def pendingC6 : CloseEnv :=
  { details :=
      { iterationNumber := 1
        paymentAmount := 100
        balance := 100
        proposingSigner := "GB"
        observationPeriodZero := false }
    proposerSignatures := ⟨true, true⟩
    confirmerSignatures := ⟨false, false⟩ }

/-- The channel holding pendingC6 as its own unauthorized proposal. -/
def chC6 : Channel :=
  { initiator := true
    localSigner := "GB"
    remoteSigner := "GA"
    phase := Phase.opened
    openAgreement := some openEnvW1
    latestAuthorizedClose := none
    latestUnauthorizedClose := some pendingC6
    localCachedBalance := 1000
    remoteCachedBalance := 1000 }

/-- A simultaneous, arithmetically valid counterparty proposal at the
same iteration 1, from the lexicographically smaller address GA. -/
def envC6 : CloseEnv :=
  { details :=
      { iterationNumber := 1
        paymentAmount := 50
        balance := -50
        proposingSigner := "GA"
        observationPeriodZero := false }
    proposerSignatures := ⟨true, true⟩
    confirmerSignatures := ⟨false, false⟩ }

/-- An open initiator-side channel whose cached local on-chain balance
is 500 (scenario S6). -/
def chUW : Channel :=
  { initiator := true
    localSigner := "GA"
    remoteSigner := "GB"
    phase := Phase.opened
    openAgreement := some openEnvW1
    latestAuthorizedClose := none
    latestUnauthorizedClose := none
    localCachedBalance := 500
    remoteCachedBalance := 1000 }

/-- An agent state with a recorded counterparty identity. -/
def aHelloW : AgentState :=
  { otherChannelAccount := some "GACC"
    otherChannelAccountSigner := some "GSIG"
    streamerCursor := "cur1"
    channel := none }

/-- A Hello whose channel account differs from the recorded one. -/
def helloBadW : Hello := { channelAccount := "GXXX", signer := "GSIG" }

/-- A Hello matching the recorded identity. -/
def helloGoodW : Hello := { channelAccount := "GACC", signer := "GSIG" }

/-! ## Theorems -/

/-- C1: declaration #i consumes escrow sequence s + 2(i-1) + 1 and its
close transaction s + 2(i-1) + 2; for j < i, after declaration #j
executes (advancing the escrow to its consumed sequence), declaration #i
remains executable, while from any point at or past declaration #i's
consumed sequence, declaration #j can never execute; executing a
declaration only ever advances the escrow sequence. -/
theorem c1_commitment_chain_supersession (s i j : Int) (hj : 1 ≤ j) (hij : j < i) :
    declSeq s i = s + 2 * (i - 1) + 1
    ∧ closeSeq s i = s + 2 * (i - 1) + 2
    ∧ execDecl s (declSeq s j) i = some (declSeq s i)
    ∧ (∀ cur, declSeq s i ≤ cur → execDecl s cur j = none)
    ∧ (∀ k cur n, execDecl s cur k = some n → cur < n) := by
  refine ⟨rfl, rfl, ?_, ?_, ?_⟩
  · have h1 : seqExecutable (declSeq s j) (declSeq s i) = true := by
      simp only [seqExecutable, declSeq, decide_eq_true_eq]
      omega
    simp [execDecl, h1]
  · intro cur hcur
    have h1 : seqExecutable cur (declSeq s j) = false := by
      simp only [seqExecutable, declSeq, decide_eq_false_iff_not]
      simp only [declSeq] at hcur
      omega
    simp [execDecl, h1]
  · intro k cur n h
    simp only [execDecl] at h
    by_cases hx : seqExecutable cur (declSeq s k) = true
    · simp only [hx, if_true, Option.some.injEq] at h
      simp only [seqExecutable, decide_eq_true_eq] at hx
      omega
    · simp [hx] at h

/-- Witness for C1 at s = 100, i = 2, j = 1: declaration #2 stays
executable after declaration #1 executed, and declaration #1 is dead
once the escrow reached declaration #2's sequence. -/
theorem c1_commitment_chain_supersession_witness :
    execDecl 100 (declSeq 100 1) 2 = some (declSeq 100 2)
    ∧ execDecl 100 (declSeq 100 2) 1 = none :=
  ⟨(c1_commitment_chain_supersession 100 2 1 (by norm_num) (by norm_num)).2.2.1,
   (c1_commitment_chain_supersession 100 2 1 (by norm_num) (by norm_num)).2.2.2.1
     (declSeq 100 2) (le_refl _)⟩

/-- C2 counterexample: in the integration test, after a single payment
of 300 from the initiator to the responder (contributions 1_000_0000000
each), the close parameters of iteration 2 carry
amountToInitiator + amountToResponder = 300, not the sum of the two
initial contributions. -/
theorem c2_balance_conservation_counterexample :
    ¬ ((closeParamsAt 101 2 (owingAfter [300])).amountToInitiator
        + (closeParamsAt 101 2 (owingAfter [300])).amountToResponder
        = 10000000000 + 10000000000) := by
  decide

/-- C2 amended: the close transaction's amounts are the net transfers,
not the full balances: amountToInitiator + amountToResponder equals the
absolute net owed, and conservation holds for the implied final
holdings: initiator_initial − amountToResponder + amountToInitiator plus
responder_initial − amountToInitiator + amountToResponder equals
initiator_initial + responder_initial. -/
theorem c2_balance_conservation_amended (s i w initC respC : Int) :
    (closeParamsAt s i w).amountToInitiator + (closeParamsAt s i w).amountToResponder = |w|
    ∧ (initC - (closeParamsAt s i w).amountToResponder + (closeParamsAt s i w).amountToInitiator)
      + (respC - (closeParamsAt s i w).amountToInitiator + (closeParamsAt s i w).amountToResponder)
      = initC + respC := by
  constructor
  · simp only [closeParamsAt, rOwesI, iOwesR]
    rcases lt_trichotomy w 0 with h | h | h
    · rw [if_pos h, if_neg (by omega), abs_of_neg h]
      omega
    · subst h
      norm_num
    · rw [if_neg (by omega), if_pos h, abs_of_pos h]
      omega
  · ring

/-- C7: snapshot round-trip: for every agent state and every operation
sequence, running the first k steps, snapshotting, restoring through
NewAgentFromSnapshot and running the remainder yields the same state as
running the whole sequence on the original agent. -/
theorem c7_snapshot_round_trip (a : AgentState) (ops : List AgentOp) (k : Nat) :
    agentRun (NewAgentFromSnapshot (buildSnapshot (agentRun a (ops.take k)))) (ops.drop k)
      = agentRun a ops := by
  have hid : ∀ b : AgentState, NewAgentFromSnapshot (buildSnapshot b) = b := by
    intro b
    cases b with
    | mk o s c ch =>
        cases ch with
        | none => rfl
        | some pr => cases pr; rfl
  rw [hid]
  show (ops.drop k).foldl agentStep ((ops.take k).foldl agentStep a) = agentRun a ops
  rw [← List.foldl_append]
  rw [List.take_append_drop]
  rfl

/-- C8: the expiry of the open agreement allocated by Agent.Open is at
most the time of the call plus half the configured maximum open
expiry. -/
theorem c8_open_expiry_bound (obsTime obsGap maxOpenExpiry now seqNum : Int) :
    (agentOpenParams obsTime obsGap maxOpenExpiry now seqNum).expiresAt
      ≤ now + maxOpenExpiry / 2 :=
  le_refl _

/-- C9: once the counterparty's channel account and signer are recorded,
a Hello whose channel account or signer differs returns an error and
leaves the recorded identity unchanged, while a Hello matching the
recorded identity succeeds and changes nothing. -/
theorem c9_hello_write_once (a : AgentState) (acc sgn : String) (h : Hello)
    (hacc : a.otherChannelAccount = some acc)
    (hsgn : a.otherChannelAccountSigner = some sgn) :
    ((h.channelAccount ≠ acc ∨ h.signer ≠ sgn) →
      (∃ e, handleHello a h = .error e) ∧ agentStep a (.hello h) = a)
    ∧ (h.channelAccount = acc → h.signer = sgn → handleHello a h = .ok a) := by
  constructor
  · intro hne
    have herr : ∃ e, handleHello a h = .error e := by
      unfold handleHello
      rcases hne with hne | hne
      · rw [if_pos]
        · exact ⟨_, rfl⟩
        · refine ⟨by rw [hacc]; rfl, ?_⟩
          rw [hacc]
          simp only [ne_eq, Option.some.injEq]
          exact fun he => hne he.symm
      · by_cases hca : a.otherChannelAccount.isSome ∧ a.otherChannelAccount ≠ some h.channelAccount
        · rw [if_pos hca]
          exact ⟨_, rfl⟩
        · rw [if_neg hca, if_pos]
          · exact ⟨_, rfl⟩
          · refine ⟨by rw [hsgn]; rfl, ?_⟩
            rw [hsgn]
            simp only [ne_eq, Option.some.injEq]
            exact fun he => hne he.symm
    refine ⟨herr, ?_⟩
    obtain ⟨e, he⟩ := herr
    simp [agentStep, he]
  · intro h1 h2
    unfold handleHello
    rw [if_neg, if_neg]
    · have : { a with otherChannelAccount := some h.channelAccount
                      otherChannelAccountSigner := some h.signer } = a := by
        cases a
        simp_all
      rw [this]
    · rw [hsgn, h2]
      simp
    · rw [hacc, h1]
      simp

/-- Witness for C9: with the identity GACC/GSIG recorded, a Hello
carrying the different account GXXX errors and leaves the state
unchanged, and the matching Hello succeeds returning the unchanged
state. -/
theorem c9_hello_write_once_witness :
    ((∃ e, handleHello aHelloW helloBadW = .error e)
      ∧ agentStep aHelloW (.hello helloBadW) = aHelloW)
    ∧ handleHello aHelloW helloGoodW = .ok aHelloW :=
  ⟨(c9_hello_write_once aHelloW "GACC" "GSIG" helloBadW rfl rfl).1 (Or.inl (by decide)),
   (c9_hello_write_once aHelloW "GACC" "GSIG" helloGoodW rfl rfl).2 rfl rfl⟩

/-- C10: constructing an agent from a Config and reading the Config back
returns the same Config in every field. -/
theorem c10_config_round_trip (c : Config) : (NewAgent c).Config = c := rfl

/-! ### Shape lemmas for the confirm and finalize operations -/

theorem OpenSigs.eq_all_of_complete {s : OpenSigs} (h : s.complete = true) : s = OpenSigs.all := by
  cases s with
  | mk c d f =>
      simp only [OpenSigs.complete, Bool.and_eq_true] at h
      obtain ⟨⟨hc, hd⟩, hf⟩ := h
      subst hc; subst hd; subst hf; rfl

theorem CloseSigs.eq_tt_of_complete {s : CloseSigs} (h : s.complete = true) :
    s = ⟨true, true⟩ := by
  cases s with
  | mk c d =>
      simp only [CloseSigs.complete, Bool.and_eq_true] at h
      obtain ⟨hc, hd⟩ := h
      subst hc; subst hd; rfl

theorem fillOpen_of_authorized {ch : Channel} {env : OpenEnv} (h : env.authorized = true) :
    fillOpen ch env = env := by
  simp only [OpenEnv.authorized, Bool.and_eq_true] at h
  obtain ⟨hp, hc⟩ := h
  have hp' := OpenSigs.eq_all_of_complete hp
  have hc' := OpenSigs.eq_all_of_complete hc
  unfold fillOpen
  split
  · cases env; simp_all
  · cases env; simp_all

theorem fillClose_details (ch : Channel) (env : CloseEnv) :
    (fillClose ch env).details = env.details := by
  unfold fillClose
  split <;> rfl

theorem confirmOpen_ok {ch : Channel} {env env' : OpenEnv} {ch' : Channel}
    (h : confirmOpen ch env = .ok (env', ch')) :
    env'.authorized = true ∧ ch'.openAgreement = some env' ∧ ch'.phase = Phase.opened := by
  cases hoa : ch.openAgreement with
  | some stored =>
      simp only [confirmOpen, hoa] at h
      split_ifs at h with h1 h2
      simp only [Except.ok.injEq, Prod.mk.injEq] at h
      obtain ⟨he, hc⟩ := h
      subst he; subst hc
      exact ⟨h2, rfl, rfl⟩
  | none =>
      simp only [confirmOpen, hoa] at h
      split_ifs at h with h1
      simp only [Except.ok.injEq, Prod.mk.injEq] at h
      obtain ⟨he, hc⟩ := h
      subst he; subst hc
      exact ⟨h1, rfl, rfl⟩

theorem proposePayment_ok {ch : Channel} {a : Int} {env : CloseEnv} {ch' : Channel}
    (h : proposePayment ch a = .ok (env, ch')) :
    env.details.iterationNumber = ch.iCur + 1
    ∧ ch' = { ch with latestUnauthorizedClose := some env } := by
  simp only [proposePayment] at h
  split_ifs at h <;>
    (simp only [Except.ok.injEq, Prod.mk.injEq] at h
     obtain ⟨he, hc⟩ := h
     subst he
     subst hc
     exact ⟨rfl, rfl⟩)

theorem confirmAgainstPending_ok {ch : Channel} {env pending env' : CloseEnv} {ch' : Channel}
    {mismatch : ChError}
    (h : confirmAgainstPending ch env pending mismatch = .ok (env', ch')) :
    env'.details = env.details ∧ ch' = storeAuthorized ch env' := by
  simp only [confirmAgainstPending] at h
  split_ifs at h with h1 h2
  simp only [Except.ok.injEq, Prod.mk.injEq] at h
  obtain ⟨he, hc⟩ := h
  subst he; subst hc
  exact ⟨fillClose_details ch env, rfl⟩

theorem confirmFreshPayment_ok {ch : Channel} {env env' : CloseEnv} {ch' : Channel}
    (h : confirmFreshPayment ch env = .ok (env', ch')) :
    env'.details = env.details ∧ ch' = storeAuthorized ch env' := by
  simp only [confirmFreshPayment] at h
  split_ifs at h
  simp only [Except.ok.injEq, Prod.mk.injEq] at h
  obtain ⟨he, hc⟩ := h
  subst he; subst hc
  exact ⟨rfl, rfl⟩

theorem confirmFreshClose_ok {ch : Channel} {env env' : CloseEnv} {ch' : Channel}
    (h : confirmFreshClose ch env = .ok (env', ch')) :
    env'.details = env.details ∧ ch' = storeAuthorized ch env' := by
  simp only [confirmFreshClose] at h
  split_ifs at h
  simp only [Except.ok.injEq, Prod.mk.injEq] at h
  obtain ⟨he, hc⟩ := h
  subst he; subst hc
  exact ⟨rfl, rfl⟩

theorem toClosing_ok {r : Except ChError (CloseEnv × Channel)} {env' : CloseEnv} {ch' : Channel}
    (h : toClosing r = .ok (env', ch')) :
    ∃ ch₀, r = .ok (env', ch₀) ∧ ch' = { ch₀ with phase := Phase.closing } := by
  cases r with
  | ok p =>
      cases p with
      | mk e c =>
          simp only [toClosing, Except.ok.injEq, Prod.mk.injEq] at h
          obtain ⟨he, hc⟩ := h
          subst he; subst hc
          exact ⟨c, rfl, rfl⟩
  | error e => exact Except.noConfusion h

theorem confirmPayment_ok {ch : Channel} {env env' : CloseEnv} {ch' : Channel}
    (h : confirmPayment ch env = .ok (env', ch')) :
    (ch' = ch ∧ ch.latestAuthorizedClose = some env')
    ∨ (env'.details.iterationNumber = ch.iCur + 1 ∧ ch' = storeAuthorized ch env') := by
  cases hp : ch.latestUnauthorizedClose with
  | some pending =>
      simp only [confirmPayment, hp] at h
      split_ifs at h with h0 h1 h2 h3 h4
      · simp only [Except.ok.injEq, Prod.mk.injEq] at h
        obtain ⟨he, hc⟩ := h
        subst he; subst hc
        exact Or.inl ⟨rfl, h0⟩
      obtain ⟨hd, hc⟩ := confirmAgainstPending_ok h
      exact Or.inr ⟨by rw [hd]; omega, hc⟩
  | none =>
      simp only [confirmPayment, hp] at h
      split_ifs at h with h0 h1 h2 h3 h4
      · simp only [Except.ok.injEq, Prod.mk.injEq] at h
        obtain ⟨he, hc⟩ := h
        subst he; subst hc
        exact Or.inl ⟨rfl, h0⟩
      obtain ⟨hd, hc⟩ := confirmFreshPayment_ok h
      exact Or.inr ⟨by rw [hd]; omega, hc⟩

theorem confirmClose_ok {ch : Channel} {env env' : CloseEnv} {ch' : Channel}
    (h : confirmClose ch env = .ok (env', ch')) :
    (ch' = ch ∧ ch.latestAuthorizedClose = some env')
    ∨ (env'.details.iterationNumber = ch.iCur + 1
       ∧ ch' = { storeAuthorized ch env' with phase := Phase.closing }) := by
  cases hp : ch.latestUnauthorizedClose with
  | some pending =>
      simp only [confirmClose, hp] at h
      split_ifs at h with h0 h1 h2 h3
      · simp only [Except.ok.injEq, Prod.mk.injEq] at h
        obtain ⟨he, hc⟩ := h
        subst he; subst hc
        exact Or.inl ⟨rfl, h0⟩
      obtain ⟨ch₀, hr, hc⟩ := toClosing_ok h
      obtain ⟨hd, hc₀⟩ := confirmAgainstPending_ok hr
      subst hc₀
      exact Or.inr ⟨by rw [hd]; omega, hc⟩
  | none =>
      simp only [confirmClose, hp] at h
      split_ifs at h with h0 h1 h2 h3
      · simp only [Except.ok.injEq, Prod.mk.injEq] at h
        obtain ⟨he, hc⟩ := h
        subst he; subst hc
        exact Or.inl ⟨rfl, h0⟩
      obtain ⟨ch₀, hr, hc⟩ := toClosing_ok h
      obtain ⟨hd, hc₀⟩ := confirmFreshClose_ok hr
      subst hc₀
      exact Or.inr ⟨by rw [hd]; omega, hc⟩

theorem finalizePayment_ok {ch : Channel} {sigs : CloseAgreementSignatures}
    {env' : CloseEnv} {ch' : Channel}
    (h : finalizePayment ch sigs = .ok (env', ch')) :
    ch'.latestAuthorizedClose = some env'
    ∧ ch'.latestUnauthorizedClose = none
    ∧ sigs.signedDetails = env'.details
    ∧ sigs.close = true
    ∧ sigs.declaration = true
    ∧ (ch' = ch
       ∨ ∃ pending, ch.latestUnauthorizedClose = some pending
           ∧ env'.details = pending.details) := by
  cases hp : ch.latestUnauthorizedClose with
  | some pending =>
      simp only [finalizePayment, hp] at h
      split_ifs at h with h1 h2 <;>
        (simp only [Except.ok.injEq, Prod.mk.injEq] at h
         obtain ⟨he, hc⟩ := h
         subst he
         subst hc
         exact ⟨rfl, rfl, h1.1, h1.2.1, h1.2.2, Or.inr ⟨pending, rfl, rfl⟩⟩)
  | none =>
      cases ha : ch.latestAuthorizedClose with
      | some auth =>
          simp only [finalizePayment, hp, ha] at h
          split_ifs at h with h1
          simp only [Except.ok.injEq, Prod.mk.injEq] at h
          obtain ⟨he, hc⟩ := h
          subst he; subst hc
          exact ⟨ha, hp, h1.1, h1.2.1, h1.2.2, Or.inl rfl⟩
      | none =>
          simp only [finalizePayment, hp, ha] at h
          exact Except.noConfusion h

theorem proposeClose_ok {ch : Channel} {env : CloseEnv} {ch' : Channel}
    (h : proposeClose ch = .ok (env, ch')) :
    env.details.iterationNumber = ch.iCur + 1
    ∧ ch' = { ch with latestUnauthorizedClose := some env, phase := Phase.closing } := by
  simp only [proposeClose] at h
  split_ifs at h
  simp only [Except.ok.injEq, Prod.mk.injEq] at h
  obtain ⟨he, hc⟩ := h
  subst he; subst hc
  exact ⟨rfl, rfl⟩

theorem iCur_congr {ch ch' : Channel}
    (h : ch'.latestAuthorizedClose = ch.latestAuthorizedClose) : ch'.iCur = ch.iCur := by
  rw [Channel.iCur, Channel.iCur, h]

/-- C4: replay safety: re-presenting an envelope that has already been
processed to full authorization to confirm_open, confirm_payment,
confirm_close or finalize_payment leaves the channel unchanged and
returns the same authorized agreement. -/
theorem c4_replay_safety :
    (∀ ch env env' ch', confirmOpen ch env = .ok (env', ch') →
        confirmOpen ch' env' = .ok (env', ch'))
    ∧ (∀ ch env env' ch', confirmPayment ch env = .ok (env', ch') →
        confirmPayment ch' env' = .ok (env', ch'))
    ∧ (∀ ch env env' ch', confirmClose ch env = .ok (env', ch') →
        confirmClose ch' env' = .ok (env', ch'))
    ∧ (∀ ch sigs env' ch', finalizePayment ch sigs = .ok (env', ch') →
        finalizePayment ch' sigs = .ok (env', ch')) := by
  refine ⟨?_, ?_, ?_, ?_⟩
  · intro ch env env' ch' h
    obtain ⟨hauth, hoa, hph⟩ := confirmOpen_ok h
    have hrec : { ch' with phase := Phase.opened, openAgreement := some env' } = ch' := by
      cases ch'
      simp_all
    simp only [confirmOpen, hoa, eq_self_iff_true, if_true]
    rw [fillOpen_of_authorized hauth, if_pos hauth, hrec]
  · intro ch env env' ch' h
    have hA : ch'.latestAuthorizedClose = some env' := by
      rcases confirmPayment_ok h with ⟨hc, hA⟩ | ⟨_, hc⟩
      · rw [hc]; exact hA
      · rw [hc]; rfl
    simp only [confirmPayment]
    rw [if_pos hA]
  · intro ch env env' ch' h
    have hA : ch'.latestAuthorizedClose = some env' := by
      rcases confirmClose_ok h with ⟨hc, hA⟩ | ⟨_, hc⟩
      · rw [hc]; exact hA
      · rw [hc]; rfl
    simp only [confirmClose]
    rw [if_pos hA]
  · intro ch sigs env' ch' h
    obtain ⟨hA, hU, hsd, hscl, hsde, _⟩ := finalizePayment_ok h
    simp only [finalizePayment, hU, hA]
    rw [if_pos ⟨hsd, hscl, hsde⟩]

/-- Witness for C4: a concrete responder confirm of a proposer-signed
open envelope authorizes it, and re-presenting the authorized envelope
is a no-op; likewise for a concrete counterparty payment confirm. -/
theorem c4_replay_safety_witness :
    confirmOpen chResponderW openEnvW = .ok (openEnvW1, chResponderW1)
    ∧ confirmOpen chResponderW1 openEnvW1 = .ok (openEnvW1, chResponderW1)
    ∧ confirmPayment chPW envPW = .ok (envPW1, chPW1)
    ∧ confirmPayment chPW1 envPW1 = .ok (envPW1, chPW1) :=
  ⟨rfl,
   c4_replay_safety.1 chResponderW openEnvW openEnvW1 chResponderW1 rfl,
   rfl,
   c4_replay_safety.2.1 chPW envPW envPW1 chPW1 rfl⟩

theorem updBal_phase (ch : Channel) (b : Int) :
    (updateLocalChannelAccountBalance ch b).phase = ch.phase := rfl

theorem updBal_initiator (ch : Channel) (b : Int) :
    (updateLocalChannelAccountBalance ch b).initiator = ch.initiator := rfl

theorem updBal_curBalance (ch : Channel) (b : Int) :
    (updateLocalChannelAccountBalance ch b).curBalance = ch.curBalance := rfl

theorem updBal_iCur (ch : Channel) (b : Int) :
    (updateLocalChannelAccountBalance ch b).iCur = ch.iCur := rfl

theorem updBal_localSigner (ch : Channel) (b : Int) :
    (updateLocalChannelAccountBalance ch b).localSigner = ch.localSigner := rfl

theorem updBal_localCachedBalance (ch : Channel) (b : Int) :
    (updateLocalChannelAccountBalance ch b).localCachedBalance = b := rfl

/-- C5: on an open channel and a positive amount, propose_payment fails
with Underfunded exactly when the proposer's resulting channel balance
would exceed the proposer's last known on-chain balance; after the
caller refreshes the cached local channel-account balance to a
sufficient value the same proposal succeeds; and the Underfunded failure
leaves the channel unchanged. -/
theorem c5_underfunded_iff_and_recoverable (ch : Channel) (amount : Int)
    (hph : ch.phase = Phase.opened) (hamt : 0 < amount) :
    ((proposePayment ch amount = .error .underfunded)
      ↔ proposerResultingOwed ch amount > ch.localCachedBalance)
    ∧ (∀ b, proposerResultingOwed ch amount ≤ b →
        ∃ env ch', proposePayment (updateLocalChannelAccountBalance ch b) amount
          = .ok (env, ch'))
    ∧ (proposePayment ch amount = .error .underfunded →
        Channel.step ch (Op.proposePay amount) = ch) := by
  have h1 : ¬ ch.phase = Phase.closing := by rw [hph]; exact fun hcon => Phase.noConfusion hcon
  have h2 : ¬ ch.phase ≠ Phase.opened := fun hcon => hcon hph
  have h3 : ¬ amount ≤ 0 := by omega
  have hcond : ∀ cb : Int,
      ((if ch.initiator then
          (if ch.initiator then ch.curBalance + amount else ch.curBalance - amount)
        else -(if ch.initiator then ch.curBalance + amount else ch.curBalance - amount))
        > cb)
      ↔ (proposerResultingOwed ch amount > cb) := by
    intro cb
    cases hI : ch.initiator <;> simp [proposerResultingOwed, hI]
  refine ⟨?_, ?_, ?_⟩
  · simp only [proposePayment, if_neg h1, if_neg h2, if_neg h3]
    rw [if_congr (hcond ch.localCachedBalance) rfl rfl]
    split_ifs with hu
    · simp [hu]
    · simp [hu]
  · intro b hb
    simp only [proposePayment, updBal_phase, updBal_initiator, updBal_curBalance,
      updBal_iCur, updBal_localSigner, updBal_localCachedBalance]
    rw [if_neg h1, if_neg h2, if_neg h3]
    rw [if_congr (hcond b) rfl rfl, if_neg (by omega)]
    exact ⟨_, _, rfl⟩
  · intro he
    simp [Channel.step, he]

/-- Witness for C5, mirroring scenario S6: with a cached local on-chain
balance of 500, proposing a payment of 600 fails Underfunded; after
refreshing the cached balance to 1000, the same proposal succeeds. -/
theorem c5_underfunded_iff_and_recoverable_witness :
    proposePayment chUW 600 = .error .underfunded
    ∧ (∃ env ch', proposePayment (updateLocalChannelAccountBalance chUW 1000) 600
        = .ok (env, ch')) :=
  ⟨((c5_underfunded_iff_and_recoverable chUW 600 rfl (by norm_num)).1).mpr (by decide),
   (c5_underfunded_iff_and_recoverable chUW 600 rfl (by norm_num)).2.1 1000 (by decide)⟩

/-- C6 counterexample: the channel chC6 (own signer GB) holds its own
unauthorized proposal pendingC6 at iteration 1 and receives the
arithmetically valid counterparty proposal envC6 at the same iteration 1
from the lexicographically smaller address GA; the handler returns
InvalidPayment and the channel is unchanged: the incoming proposal from
the smaller address is not kept, the local pending proposal is not
discarded, and no re-proposal at iteration 2 happens. -/
theorem c6_tiebreak_counterexample :
    handlePaymentRequest chC6 1000 envC6 = .error .invalidPayment
    ∧ Channel.step chC6 (Op.confirmPay envC6) = chC6
    ∧ (chC6.latestUnauthorizedClose = some pendingC6
       ∧ envC6.details.iterationNumber = pendingC6.details.iterationNumber
       ∧ envC6.details.proposingSigner = chC6.remoteSigner
       ∧ chC6.remoteSigner < chC6.localSigner) := by
  refine ⟨rfl, rfl, rfl, rfl, rfl, ?_⟩
  rw [String.lt_iff_toList_lt]
  decide

/-- C6 amended: a side that receives a counterparty proposal at
iteration i while holding its own unauthorized proposal at the same
iteration fails with InvalidPayment (details mismatch) and keeps its
channel state, pending proposal included, unchanged; no lexicographic
tie-break is applied and no automatic re-proposal at i + 1 happens. -/
theorem c6_simultaneous_proposals_amended (ch : Channel) (env p : CloseEnv) (b : Int)
    (hph : ch.phase = Phase.opened)
    (hpend : ch.latestUnauthorizedClose = some p)
    (hiter : env.details.iterationNumber = ch.iCur + 1)
    (hne : env.details ≠ p.details)
    (hobs : env.details.observationPeriodZero = false) :
    handlePaymentRequest ch b env = .error .invalidPayment
    ∧ Channel.step ch (Op.confirmPay env) = ch := by
  have hA : ¬ ch.latestAuthorizedClose = some env := by
    intro hcon
    have : ch.iCur = env.details.iterationNumber := by
      rw [Channel.iCur, hcon]
    omega
  have h1 : ¬ ch.phase = Phase.closing := by rw [hph]; exact fun hcon => Phase.noConfusion hcon
  have h2 : ¬ ch.phase ≠ Phase.opened := fun hcon => hcon hph
  have h3 : ¬ env.details.iterationNumber ≠ ch.iCur + 1 := fun hcon => hcon hiter
  have h4 : ¬ env.details.observationPeriodZero = true := by rw [hobs]; exact Bool.false_ne_true
  have hconf : confirmPayment ch env = .error .invalidPayment := by
    simp only [confirmPayment, hpend]
    rw [if_neg hA, if_neg h1, if_neg h2, if_neg h3, if_neg h4]
    simp only [confirmAgainstPending]
    rw [if_neg hne]
  refine ⟨?_, ?_⟩
  · simp only [handlePaymentRequest, hconf]
  · simp only [Channel.step, hconf]

/-- Witness for C6's amended claim at the concrete simultaneous-proposal
state chC6 / envC6. -/
theorem c6_simultaneous_proposals_amended_witness :
    handlePaymentRequest chC6 1000 envC6 = .error .invalidPayment
    ∧ Channel.step chC6 (Op.confirmPay envC6) = chC6 :=
  c6_simultaneous_proposals_amended chC6 envC6 pendingC6 1000 rfl rfl (by decide)
    (by decide) rfl

theorem stepPreserves (ch : Channel) (op : Op) (hinv : pendingInv ch) :
    pendingInv (ch.step op)
    ∧ ((ch.step op).latestAuthorizedClose = ch.latestAuthorizedClose
       ∨ (ch.step op).iCur = ch.iCur + 1) := by
  cases op with
  | proposePay a =>
      cases hr : proposePayment ch a with
      | error e =>
          simp only [Channel.step, hr]
          exact ⟨hinv, Or.inl (by trivial)⟩
      | ok pr =>
          obtain ⟨env, ch'⟩ := pr
          obtain ⟨hit, hc⟩ := proposePayment_ok hr
          subst hc
          simp only [Channel.step, hr]
          refine ⟨?_, Or.inl (by trivial)⟩
          intro p hp
          have hep : env = p := Option.some.inj hp
          subst hep
          exact hit
  | confirmPay env =>
      cases hr : confirmPayment ch env with
      | error e =>
          simp only [Channel.step, hr]
          exact ⟨hinv, Or.inl (by trivial)⟩
      | ok pr =>
          obtain ⟨env', ch'⟩ := pr
          simp only [Channel.step, hr]
          rcases confirmPayment_ok hr with ⟨hc, _⟩ | ⟨hit, hc⟩
          · subst hc
            exact ⟨hinv, Or.inl (by trivial)⟩
          · subst hc
            refine ⟨?_, Or.inr hit⟩
            intro p hp
            exact Option.noConfusion hp
  | finalizePay sigs =>
      cases hr : finalizePayment ch sigs with
      | error e =>
          simp only [Channel.step, hr]
          exact ⟨hinv, Or.inl (by trivial)⟩
      | ok pr =>
          obtain ⟨env', ch'⟩ := pr
          simp only [Channel.step, hr]
          obtain ⟨hA, hU, _, _, _, hcase⟩ := finalizePayment_ok hr
          constructor
          · intro p hp
            rw [hU] at hp
            exact Option.noConfusion hp
          · rcases hcase with hc | ⟨pending, hpend, hdet⟩
            · subst hc
              exact Or.inl (by trivial)
            · right
              have hic : ch'.iCur = env'.details.iterationNumber := by
                rw [Channel.iCur, hA]
              rw [hic, hdet]
              exact hinv pending hpend
  | proposeCl =>
      cases hr : proposeClose ch with
      | error e =>
          simp only [Channel.step, hr]
          exact ⟨hinv, Or.inl (by trivial)⟩
      | ok pr =>
          obtain ⟨env, ch'⟩ := pr
          obtain ⟨hit, hc⟩ := proposeClose_ok hr
          subst hc
          simp only [Channel.step, hr]
          refine ⟨?_, Or.inl (by trivial)⟩
          intro p hp
          have hep : env = p := Option.some.inj hp
          subst hep
          exact hit
  | confirmCl env =>
      cases hr : confirmClose ch env with
      | error e =>
          simp only [Channel.step, hr]
          exact ⟨hinv, Or.inl (by trivial)⟩
      | ok pr =>
          obtain ⟨env', ch'⟩ := pr
          simp only [Channel.step, hr]
          rcases confirmClose_ok hr with ⟨hc, _⟩ | ⟨hit, hc⟩
          · subst hc
            exact ⟨hinv, Or.inl (by trivial)⟩
          · subst hc
            refine ⟨?_, Or.inr hit⟩
            intro p hp
            exact Option.noConfusion hp
  | updLocal b =>
      simp only [Channel.step]
      exact ⟨fun p hp => hinv p hp, Or.inl (by trivial)⟩
  | updRemote b =>
      simp only [Channel.step]
      exact ⟨fun p hp => hinv p hp, Or.inl (by trivial)⟩

/-- C3: every step either leaves the latest authorized close agreement
unchanged or advances its iteration to exactly iCur + 1, so over any
operation sequence the successively authorized iterations are strictly
increasing and iCur never decreases; and every close agreement produced
by propose_payment carries iteration exactly iCur + 1. -/
theorem c3_monotonic_iterations :
    (∀ ch op, pendingInv ch → pendingInv (Channel.step ch op))
    ∧ (∀ ch op, pendingInv ch →
        (Channel.step ch op).latestAuthorizedClose = ch.latestAuthorizedClose
        ∨ (Channel.step ch op).iCur = ch.iCur + 1)
    ∧ (∀ ch a env ch', proposePayment ch a = .ok (env, ch') →
        env.details.iterationNumber = ch.iCur + 1)
    ∧ (∀ ch ops, pendingInv ch → ch.iCur ≤ (Channel.run ch ops).iCur) := by
  refine ⟨fun ch op h => (stepPreserves ch op h).1,
          fun ch op h => (stepPreserves ch op h).2,
          fun ch a env ch' h => (proposePayment_ok h).1, ?_⟩
  intro ch ops hinv
  induction ops generalizing ch with
  | nil => exact le_refl _
  | cons op rest ih =>
      have hs := stepPreserves ch op hinv
      have hstep : ch.iCur ≤ (ch.step op).iCur := by
        rcases hs.2 with h | h
        · rw [iCur_congr h]
        · omega
      have hrun : Channel.run ch (op :: rest) = Channel.run (ch.step op) rest := rfl
      rw [hrun]
      exact le_trans hstep (ih _ hs.1)

/-- Witness for C3 on the concrete open channel chPW: the pending
invariant holds, is preserved by a payment proposal of 100, and iCur
does not decrease over a run. -/
theorem c3_monotonic_iterations_witness :
    pendingInv chPW
    ∧ pendingInv (Channel.step chPW (Op.proposePay 100))
    ∧ chPW.iCur ≤ (Channel.run chPW [Op.proposePay 100]).iCur :=
  ⟨fun p hp => Option.noConfusion hp,
   c3_monotonic_iterations.1 chPW (Op.proposePay 100) (fun p hp => Option.noConfusion hp),
   c3_monotonic_iterations.2.2.2 chPW [Op.proposePay 100] (fun p hp => Option.noConfusion hp)⟩

end Starlight
